import Mathlib

/-!
Verification development for the live-stream switcher (src/stream_manager.py).

The program supervises three kinds of external processes: per-camera source
feeds (an extractor piped into a normalizer), one persistent output ffmpeg
process (the sink), and a relay thread (buffer_writer) that forwards bytes
from the active feed into the sink.  The switch controller (stream_loop)
rotates the active feed on a timer.

The embedding below translates the relevant parts of the source:

* camera rotation (get_current_camera, advance_camera) as pure functions;
* stream_loop as a small-step state machine over an explicit program-counter
  (Phase), driven one step at a time by an environment record carrying the
  outcomes of the external-world interactions of that step (process spawns,
  liveness polls, readiness probes, stop requests);
* buffer_writer as a loop over per-iteration environment records;
* start_camera_feed as a function that also reports which external processes
  are left running after the call;
* the configuration/startup pipeline (load_config, start_ffmpeg, entry of
  stream_loop, main) as an error monad recording which processes were
  started before each possible failure point.

Line numbers in comments refer to src/stream_manager.py.
-/

namespace StreamManager

/-! ### Cameras and rotation (lines 264-277) -/

/-- One entry of the configured camera list: a display name and a locator,
either a direct stream URL or a video-platform id (lines 280-319 accept
either). -/
structure Camera where
  name : String
  streamUrl : Option String
  youtubeId : Option String
deriving DecidableEq, Repr

/-- Model of get_current_camera (lines 266-269):
cameras[current_camera_index % len(cameras)].  Returns none exactly when the
list is empty, where Python would raise ZeroDivisionError on the modulus. -/
def get_current_camera (cameras : List Camera) (idx : Nat) : Option Camera :=
  cameras.get? (idx % cameras.length)

/-- Model of advance_camera (lines 272-277) restricted to the index update:
current_camera_index = (current_camera_index + 1) % len(cameras). -/
def advance_camera (cameras : List Camera) (idx : Nat) : Nat :=
  (idx + 1) % cameras.length

/-! ### Feeds, pointer-write events and the switch controller (lines 553-666)

stream_loop runs in the main thread; buffer_writer only ever reads
current_camera_proc (it declares the global at line 411 but never assigns
it), so every write to the active-feed pointer is one of the three
assignments in stream_loop: line 576 (first publish), line 644 (swap) and
line 664 (cleanup), each inside a `with camera_lock` block.  The state
machine below records each such write as an event tagged with the lock
status of the enclosing block, and records feed starts and stops as
events as well. -/

/-- A source-feed handle: the yt-dlp/ffmpeg + normalizer pipeline returned by
start_camera_feed.  Handles are identified by a creation ordinal so that two
distinct start_camera_feed results are never the same handle. -/
structure Feed where
  id : Nat
deriving DecidableEq, Repr

/-- Observable actions of stream_loop on shared resources. -/
inductive Event where
  /-- An assignment to current_camera_proc; locked records whether the
  assignment is inside a `with camera_lock` block. -/
  | ptrWrite (v : Option Feed) (locked : Bool)
  /-- A successful start_camera_feed call returning this handle. -/
  | feedStart (f : Feed)
  /-- A stop_camera_feed call on this handle. -/
  | feedStop (f : Feed)
deriving DecidableEq, Repr

/-- Program counter of stream_loop. -/
inductive Phase where
  /-- Lines 565-581: start the first camera and publish it. -/
  | starting
  /-- Line 583: the outer `while running and not stop_event.is_set()` test. -/
  | loopHead
  /-- Lines 585-605: the dwell wait, one iteration per second of elapsed
  time, polling sink and feed liveness each iteration. -/
  | dwell (elapsed : Nat)
  /-- Lines 607-618: the post-dwell break test, advance_camera, and the
  attempt to start the next feed. -/
  | afterDwell
  /-- Lines 620-633: probing the new feed's stdout for first data. -/
  | probe (newFeed : Feed) (waited : Nat)
  /-- Lines 640-644: repoint current_camera_proc under camera_lock. -/
  | swapPtr (newFeed : Feed)
  /-- Lines 646-648: stop the old feed after the swap. -/
  | stopOldFeed (newFeed : Feed) (oldFeed : Option Feed)
  /-- Line 652: the two-second drain sleep before re-entering the loop. -/
  | drain
  /-- Lines 656-664: stop the buffer thread and the active feed. -/
  | cleanup
  /-- stream_loop has returned; earlyReturn is true for the return at
  line 573 (first camera failed to start, cleanup block skipped). -/
  | stopped (earlyReturn : Bool)
deriving DecidableEq, Repr

/-- Configuration parameters stream_loop reads. -/
structure Params where
  /-- len(config["cameras"]). -/
  numCameras : Nat
  /-- config["stream"]["switch_interval"], in seconds (line 559). -/
  switchInterval : Nat
  /-- max_wait, the bound on the readiness probe, in probe iterations
  (line 626: 10 seconds). -/
  maxWait : Nat
deriving DecidableEq, Repr

/-- Outcomes of the external-world interactions of one controller step. -/
structure CtrlEnv where
  /-- The signal handler (lines 669-674) ran since the previous step:
  it sets running = False and stop_event. -/
  stopRequested : Bool
  /-- ffmpeg_proc.poll() is None at line 588 (sink still running). -/
  ffmpegAlive : Bool
  /-- Both feed processes are still running at lines 598-600. -/
  camAlive : Bool
  /-- start_camera_feed returns a handle rather than None. -/
  startOk : Bool
  /-- select on the new feed's stdout reported readable data (line 629). -/
  dataReady : Bool
deriving DecidableEq, Repr

/-- State of stream_loop together with the module-level globals it touches. -/
structure CtrlState where
  phase : Phase
  /-- Global `running` (line 41). -/
  running : Bool
  /-- Global stop_event (line 42), sticky once set. -/
  stopSet : Bool
  /-- Global current_camera_index (line 40). -/
  cameraIndex : Nat
  /-- Global current_camera_proc (line 53), the ActiveFeedPointer. -/
  ptr : Option Feed
  /-- Next fresh feed-handle ordinal. -/
  nextFeedId : Nat
  /-- Log of pointer writes, feed starts and feed stops, oldest first. -/
  log : List Event
deriving DecidableEq, Repr

/-- Asynchronous part of a step: if a termination signal arrived, the handler
(lines 669-674) has set running = False and stop_event before the loop body
observes them. -/
def applySignal (env : CtrlEnv) (s : CtrlState) : CtrlState :=
  if env.stopRequested then { s with stopSet := true, running := false } else s

/-- One small step of stream_loop at the current program counter. -/
def stream_loop_step_core (P : Params) (env : CtrlEnv) (s : CtrlState) : CtrlState :=
  match s.phase with
  | .starting =>
    -- lines 569-581
    if env.startOk then
      let f : Feed := ⟨s.nextFeedId⟩
      { s with phase := .loopHead,
               ptr := some f,
               nextFeedId := s.nextFeedId + 1,
               log := s.log ++ [.feedStart f, .ptrWrite (some f) true] }
    else
      -- lines 570-573: log error, running = False, return (skips cleanup)
      { s with running := false, phase := .stopped true }
  | .loopHead =>
    -- line 583
    if s.running = true ∧ s.stopSet = false then { s with phase := .dwell 0 }
    else { s with phase := .cleanup }
  | .dwell e =>
    -- line 586: while running and elapsed < switch_interval and not stop
    if s.running = true ∧ e < P.switchInterval ∧ s.stopSet = false then
      if env.ffmpegAlive = false then
        -- lines 588-591: sink died; running = False and break
        { s with running := false, phase := .afterDwell }
      else if s.ptr.isSome = true ∧ env.camAlive = false then
        -- lines 594-602: active feed died; break early to switch now
        { s with phase := .afterDwell }
      else
        -- lines 604-605: sleep 1; elapsed += 1
        { s with phase := .dwell (e + 1) }
    else { s with phase := .afterDwell }
  | .afterDwell =>
    -- line 607: if not running or stop_event.is_set(): break
    if s.running = false ∨ s.stopSet = true then { s with phase := .cleanup }
    else
      -- line 611: next_cam = advance_camera()  (index moves first)
      let s1 := { s with cameraIndex := (s.cameraIndex + 1) % P.numCameras }
      -- line 615: new_cam_proc = start_camera_feed(next_cam)
      if env.startOk then
        let f : Feed := ⟨s1.nextFeedId⟩
        { s1 with phase := .probe f 0,
                  nextFeedId := s1.nextFeedId + 1,
                  log := s1.log ++ [.feedStart f] }
      else
        -- lines 616-618: log "keeping current" and continue the outer loop
        { s1 with phase := .loopHead }
  | .probe f w =>
    -- line 628: while time - wait_start < max_wait and not stop_event
    if w < P.maxWait ∧ s.stopSet = false then
      if env.dataReady then { s with phase := .swapPtr f }
      else { s with phase := .probe f (w + 1) }
    else
      -- line 635-636: proceed anyway after the bound (warning only)
      { s with phase := .swapPtr f }
  | .swapPtr f =>
    -- lines 640-644: with camera_lock: old = current; current = new
    { s with phase := .stopOldFeed f s.ptr,
             ptr := some f,
             log := s.log ++ [.ptrWrite (some f) true] }
  | .stopOldFeed _ old =>
    -- lines 646-648: stop_camera_feed(old_cam_proc) if it was set
    match old with
    | some o => { s with phase := .drain, log := s.log ++ [.feedStop o] }
    | none => { s with phase := .drain }
  | .drain =>
    -- line 652: time.sleep(2), then back to the outer while test
    { s with phase := .loopHead }
  | .cleanup =>
    -- lines 656-664: with camera_lock: stop feed; current = None
    match s.ptr with
    | some c =>
      { s with phase := .stopped false, ptr := none,
               log := s.log ++ [.feedStop c, .ptrWrite none true] }
    | none => { s with phase := .stopped false }
  | .stopped _ => s

/-- One controller step: deliver any pending signal, then run the loop body
at the current program counter. -/
def stream_loop_step (P : Params) (env : CtrlEnv) (s : CtrlState) : CtrlState :=
  stream_loop_step_core P env (applySignal env s)

/-- Run the controller over a finite schedule of environment records. -/
def stream_loop_run (P : Params) (envs : List CtrlEnv) (s : CtrlState) : CtrlState :=
  envs.foldl (fun st e => stream_loop_step P e st) s

/-- stream_loop's state on entry (lines 555-567): running was set to True by
main (line 705), the index starts at 0, no feed is published yet. -/
def initState : CtrlState :=
  { phase := .starting, running := true, stopSet := false,
    cameraIndex := 0, ptr := none, nextFeedId := 0, log := [] }

/-- Phases strictly after the first publish of a feed and strictly before the
shutdown path (the claim scope of the ActiveFeedPointer invariant). -/
def activePhase : Phase → Bool
  | .loopHead => true
  | .dwell _ => true
  | .afterDwell => true
  | .probe _ _ => true
  | .swapPtr _ => true
  | .stopOldFeed _ _ => true
  | .drain => true
  | _ => false

/-- Every recorded assignment to current_camera_proc was made inside a
`with camera_lock` block. -/
def writesLocked (log : List Event) : Prop :=
  ∀ v l, Event.ptrWrite v l ∈ log → l = true

/-! ### The relay thread, buffer_writer (lines 405-456) -/

/-- Outcome of one read attempt inside the `for _ in range(10)` loop of one
buffer_writer iteration (lines 429-446). -/
inductive ReadEvent where
  /-- select timed out with nothing readable: break and re-check the active
  camera (lines 444-446). -/
  | notReady
  /-- The feed's stdout was readable but read() returned no bytes (EOF):
  break and let the controller's liveness poll react (lines 441-443). -/
  | eofData
  /-- A non-empty chunk was read; sinkOpen is the `ffmpeg_proc and
  ffmpeg_proc.stdin` test at line 433, writeOk is whether the write+flush at
  lines 435-436 succeeded rather than raising BrokenPipeError/OSError. -/
  | chunk (sinkOpen : Bool) (writeOk : Bool)
  /-- A ValueError/OSError was raised while reading (pipe closed under us):
  caught at lines 447-449, sleep and continue the outer loop. -/
  | readError
deriving DecidableEq, Repr

/-- Why the buffer_writer loop ended. -/
inductive RelayExit where
  /-- buffer_stop_event was set: the `while not buffer_stop_event.is_set()`
  test at line 413 fails. -/
  | stopFlag
  /-- The write to ffmpeg's stdin raised BrokenPipeError/OSError: `return` at
  line 440. -/
  | sinkWriteFailed
deriving DecidableEq, Repr

/-- The inner read loop (lines 429-446): returns some exit reason when the
thread function returns from inside the loop, none when control falls
through to the next outer iteration. -/
def relayReads : List ReadEvent → Option RelayExit
  | [] => none
  | .notReady :: _ => none
  | .eofData :: _ => none
  | .readError :: _ => none
  | .chunk sinkOpen writeOk :: rest =>
    if sinkOpen then
      if writeOk then relayReads rest else some .sinkWriteFailed
    else
      -- data read but the sink handle test at line 433 failed and the
      -- `elif not data` test at line 441 also fails: fall through, next read
      relayReads rest

/-- Environment of one outer buffer_writer iteration. -/
structure RelayEnv where
  /-- buffer_stop_event.is_set() at line 413. -/
  stopSet : Bool
  /-- The value of current_camera_proc read under camera_lock at
  lines 415-416. -/
  camProc : Option Feed
  /-- The successive read outcomes offered to the inner loop. -/
  reads : List ReadEvent
deriving DecidableEq, Repr

/-- One outer iteration of buffer_writer (lines 413-456): some exit reason
when the thread function returns during this iteration, none when the loop
continues. -/
def buffer_writer_iter (env : RelayEnv) : Option RelayExit :=
  if env.stopSet then some .stopFlag
  else
    match env.camProc with
    | none => none      -- lines 418-420: short sleep, continue
    | some _ => relayReads (env.reads.take 10)  -- line 429: for _ in range(10)

/-- The buffer_writer loop over a finite schedule of iterations: the first
iteration that returns ends the thread. -/
def buffer_writer : List RelayEnv → Option RelayExit
  | [] => none
  | e :: rest =>
    match buffer_writer_iter e with
    | some r => some r
    | none => buffer_writer rest

/-! ### start_camera_feed (lines 280-383) -/

/-- Kinds of external process the program spawns. -/
inductive ProcKind where
  /-- The source process: ffmpeg on a direct URL (lines 345-353) or yt-dlp
  (lines 363-371). -/
  | sourceExtractor
  /-- The normalizing ffmpeg reading the source's stdout (lines 354-360 and
  372-378). -/
  | normalizer
  /-- The persistent output ffmpeg started by start_ffmpeg (line 523). -/
  | outputSink
deriving DecidableEq, Repr

/-- Whether each subprocess.Popen call in start_camera_feed succeeds or
raises. -/
structure SpawnEnv where
  sourceSpawnOk : Bool
  normSpawnOk : Bool
deriving DecidableEq, Repr

/-- Model of start_camera_feed (lines 280-383): first component is the
returned handle (None on any failure), second is the list of external
processes left running when the call returns.  The try block spawns the
source process first and the normalizer second; the except handler at
lines 381-383 only logs and returns None, terminating nothing. -/
def start_camera_feed (camera : Camera) (env : SpawnEnv) :
    Option (ProcKind × ProcKind) × List ProcKind :=
  match camera.streamUrl with
  | some _ =>
    -- lines 297-305 build the ffmpeg source command; lines 345-362 spawn
    if env.sourceSpawnOk then
      if env.normSpawnOk then
        (some (.sourceExtractor, .normalizer), [.sourceExtractor, .normalizer])
      else
        -- the normalizer Popen raised with the source already running;
        -- the handler returns None and leaves the source process running
        (none, [.sourceExtractor])
    else (none, [])
  | none =>
    match camera.youtubeId with
    | some _ =>
      -- lines 306-316 build the yt-dlp command; lines 363-380 spawn
      if env.sourceSpawnOk then
        if env.normSpawnOk then
          (some (.sourceExtractor, .normalizer), [.sourceExtractor, .normalizer])
        else
          (none, [.sourceExtractor])
      else (none, [])
    | none =>
      -- lines 317-319: no locator, log an error and return None
      (none, [])

/-! ### Configuration loading and startup order (lines 115-168, 677-731) -/

/-- Shape of the merged configuration dictionary as far as the key accesses
of load_config, start_ffmpeg and stream_loop are concerned. -/
structure RawConfig where
  /-- A "stream" mapping exists after the merge. -/
  hasStream : Bool
  /-- stream.switch_interval exists. -/
  hasSwitchInterval : Bool
  /-- stream.youtube exists. -/
  hasYoutube : Bool
  /-- stream.youtube.stream_key exists explicitly. -/
  hasStreamKey : Bool
  /-- The stream-key environment variable (configured or derived) is set to
  a non-empty string (line 154). -/
  streamKeyEnvSet : Bool
  /-- The "cameras" key: none when absent, some n for a list of n entries. -/
  cameras : Option Nat
  /-- An "ffmpeg" mapping exists. -/
  hasFfmpeg : Bool
  /-- An "audio" mapping exists. -/
  hasAudio : Bool
deriving DecidableEq, Repr

/-- Unhandled Python exceptions the startup path can raise. -/
inductive PyErr where
  | keyError (key : String)
  | nameError (missing : String)
  | zeroDivision
deriving DecidableEq, Repr

/-- Names bound in load_config's scope when line 160 executes: its
parameters and locals assigned on lines 119-154, the module globals
(lines 36-54) and the module-level functions and classes.  The warning
f-string at lines 160-161 interpolates the name stream_name, which appears
in none of them (it is only a parameter of derive_stream_key_env, a
different scope), so evaluating that f-string raises NameError. -/
def load_config_scope : List String :=
  ["stream_config_path", "base_config_path", "stream_path", "f",
   "stream_cfg", "display_name", "stream_filename", "base_cfg", "base_path",
   "stream_opts", "youtube_opts", "env_var", "stream_key",
   "SCRIPT_DIR", "logger", "config", "current_camera_index", "running",
   "stop_event", "http_server", "hls_dir", "ffmpeg_proc", "buffer_thread",
   "buffer_stop_event", "current_camera_proc", "camera_lock",
   "setup_logging", "expand_env_vars", "deep_merge", "derive_stream_key_env",
   "load_config", "StreamHandler", "start_http_server",
   "get_current_camera", "advance_camera", "start_camera_feed",
   "stop_camera_feed", "buffer_writer", "start_ffmpeg", "stop_ffmpeg",
   "stream_loop", "signal_handler", "main"]

/-- Model of load_config from line 148 on (the config files were read and
merged; lines 115-126 exit separately when the file is missing).  Models the
stream-key handling at lines 148-161 and the key accesses of the logging
calls at lines 166-168. -/
def load_config (cfg : RawConfig) : Except PyErr Unit := do
  -- lines 148-149: stream_opts = config.get('stream', {}) and
  -- youtube_opts = stream_opts.get('youtube', {}) never raise; the explicit
  -- key is visible only when both mappings exist
  let streamKeyPresent := cfg.hasStream && cfg.hasYoutube && cfg.hasStreamKey
  -- line 151: if 'stream_key' not in youtube_opts
  if streamKeyPresent = false then
    if cfg.streamKeyEnvSet then
      -- lines 155-158: install the key from the environment
      pure ()
    else
      -- lines 159-161: the warning path evaluates an f-string naming
      -- stream_name, which is unbound in this scope: NameError
      throw (.nameError "stream_name")
  -- line 167: config['stream']['switch_interval']
  if cfg.hasStream = false then throw (.keyError "stream")
  if cfg.hasSwitchInterval = false then throw (.keyError "switch_interval")
  -- line 168 uses .get with a default and never raises
  pure ()

/-- Whether a stream key is present in the config after load_config ran
(either explicitly, or installed from the environment at line 156 — the
installation lands in the real config dict only when stream.youtube
exists, because stream_opts.get('youtube', {}) otherwise returns a fresh
dict). -/
def effectiveStreamKey (cfg : RawConfig) : Bool :=
  cfg.hasStream && cfg.hasYoutube && (cfg.hasStreamKey || cfg.streamKeyEnvSet)

/-- Model of start_ffmpeg (lines 461-531): the section reads at lines
465-467 raise KeyError before anything is spawned; in push mode with no
stream key it returns False before spawning (lines 516-518); otherwise the
persistent sink process is spawned (line 523) and it returns True.  The
result pairs the return value with the processes spawned by the call. -/
def start_ffmpeg (cfg : RawConfig) (previewMode : Bool) :
    Except PyErr (Bool × List ProcKind) := do
  if cfg.hasFfmpeg = false then throw (.keyError "ffmpeg")
  if cfg.hasStream = false then throw (.keyError "stream")
  if cfg.hasAudio = false then throw (.keyError "audio")
  if previewMode then
    pure (true, [.outputSink])
  else
    if effectiveStreamKey cfg then pure (true, [.outputSink])
    else pure (false, [])

/-- The configuration accesses at the top of stream_loop (lines 559-569),
executed only after the sink is already running: line 559 re-reads
stream.switch_interval, line 560 reads config["cameras"], and
get_current_camera at line 565 computes index % len(cameras), raising
ZeroDivisionError on an empty list. -/
def stream_loop_entry (cfg : RawConfig) : Except PyErr Unit := do
  if (cfg.hasStream && cfg.hasSwitchInterval) = false then
    throw (.keyError "switch_interval")
  match cfg.cameras with
  | none => throw (.keyError "cameras")
  | some n => if n = 0 then throw .zeroDivision else pure ()

/-- How far main (lines 677-731) got before stopping, and why. -/
inductive StartupOutcome where
  /-- An unhandled exception before any subprocess was spawned: load_config
  raised (the call at line 688 is outside any try), or start_ffmpeg raised
  before its Popen (the call at line 708 is outside the try at line 715). -/
  | abortedBeforeProcesses (e : PyErr)
  /-- start_ffmpeg returned False and main called sys.exit(1) at line 710,
  still before any subprocess was spawned. -/
  | exitedBeforeProcesses
  /-- stream_loop raised after the sink was started; main catches the
  exception at lines 717-718 and returns normally from the finally block. -/
  | errorAfterSink (e : PyErr)
  /-- All startup accesses succeeded and the camera loop proper began. -/
  | streamLoopEntered
deriving DecidableEq, Repr

/-- The startup sequence of main: load_config (line 688), start_ffmpeg
(line 708), then stream_loop's entry accesses inside the try (line 716).
Second component: every external process spawned by the time main stops
advancing (or, in the last case, by the time the camera loop begins). -/
def mainStartup (cfg : RawConfig) (previewMode : Bool) :
    StartupOutcome × List ProcKind :=
  match load_config cfg with
  | .error e => (.abortedBeforeProcesses e, [])
  | .ok _ =>
    match start_ffmpeg cfg previewMode with
    | .error e => (.abortedBeforeProcesses e, [])
    | .ok (false, procs) => (.exitedBeforeProcesses, procs)
    | .ok (true, procs) =>
      match stream_loop_entry cfg with
      | .error e => (.errorAfterSink e, procs)
      | .ok _ => (.streamLoopEntered, procs)

/-- Process exit status of a run of main: 1 for the explicit sys.exit(1)
calls and for an unhandled traceback during startup; 0 otherwise, because
stream_loop returns normally on every internal failure (including the sink
dying, lines 588-591) and any exception it does raise is caught at
lines 717-718, after which main falls off the end of the finally block. -/
def main_exit_status (cfg : RawConfig) (previewMode : Bool) : Nat :=
  match (mainStartup cfg previewMode).1 with
  | .abortedBeforeProcesses _ => 1
  | .exitedBeforeProcesses => 1
  | .errorAfterSink _ => 0
  | .streamLoopEntered => 0

/-! ### Invariants of the switch controller -/

/-- Inductive invariant of the switch-controller state machine, strong
enough to be preserved by every step: the pointer is populated throughout
the active phases, all pointer writes are under the lock, unminted handles
are unmentioned, the published feed is never a stopped one, and the
switching phases keep the old feed published and unstopped until the swap,
after which the old feed is stopped. -/
structure Inv (s : CtrlState) : Prop where
  ptrSome : activePhase s.phase = true → ∃ f, s.ptr = some f
  lockedWrites : writesLocked s.log
  fresh : ∀ f : Feed, s.nextFeedId ≤ f.id →
    Event.feedStart f ∉ s.log ∧ Event.feedStop f ∉ s.log ∧ s.ptr ≠ some f
  ptrNotStopped : ∀ f : Feed, s.ptr = some f → Event.feedStop f ∉ s.log
  probeInv : ∀ f w, s.phase = .probe f w →
    Event.feedStart f ∈ s.log ∧ Event.feedStop f ∉ s.log ∧
      ∃ g, s.ptr = some g ∧ g ≠ f
  swapInv : ∀ f, s.phase = .swapPtr f →
    Event.feedStart f ∈ s.log ∧ Event.feedStop f ∉ s.log ∧
      ∃ g, s.ptr = some g ∧ g ≠ f
  stopOldInv : ∀ f old, s.phase = .stopOldFeed f old →
    s.ptr = some f ∧ Event.ptrWrite (some f) true ∈ s.log ∧
      ∀ o, old = some o → o ≠ f ∧ o.id < s.nextFeedId ∧ Event.feedStop o ∉ s.log

theorem writesLocked_append {l1 l2 : List Event} (h1 : writesLocked l1)
    (h2 : writesLocked l2) : writesLocked (l1 ++ l2) := by
  intro v l hm
  rcases List.mem_append.mp hm with hm | hm
  · exact h1 v l hm
  · exact h2 v l hm

theorem not_mem_append_events {e : Event} {l1 l2 : List Event}
    (h1 : e ∉ l1) (h2 : e ∉ l2) : e ∉ l1 ++ l2 := by
  intro hm
  rcases List.mem_append.mp hm with hm | hm
  · exact h1 hm
  · exact h2 hm

theorem inv_init : Inv initState := by
  refine ⟨?_, ?_, ?_, ?_, ?_, ?_, ?_⟩ <;>
    simp [initState, activePhase, writesLocked]

theorem inv_applySignal (env : CtrlEnv) (s : CtrlState) (h : Inv s) :
    Inv (applySignal env s) := by
  unfold applySignal
  split
  · exact ⟨h.ptrSome, h.lockedWrites, h.fresh, h.ptrNotStopped, h.probeInv,
      h.swapInv, h.stopOldInv⟩
  · exact h

theorem feed_mk_ne {n : Nat} {g : Feed} (h : n < g.id) : (⟨n⟩ : Feed) ≠ g := by
  intro he
  have hid : g.id = n := by rw [← he]
  omega

theorem inv_step_core (P : Params) (env : CtrlEnv) (s : CtrlState)
    (h : Inv s) : Inv (stream_loop_step_core P env s) := by
  obtain ⟨hA, hL, hF, hB, hPR, hSW, hSO⟩ := h
  obtain ⟨ph, run, stp, ci, pt, nid, lg⟩ := s
  cases ph with
  | starting =>
    simp only [stream_loop_step_core]
    split
    · -- lines 569-581: first feed minted, published under the lock
      refine ⟨fun _ => ⟨⟨nid⟩, rfl⟩, ?_, ?_, ?_, ?_, ?_, ?_⟩
      · show writesLocked (lg ++ [Event.feedStart ⟨nid⟩, Event.ptrWrite (some ⟨nid⟩) true])
        refine writesLocked_append hL ?_
        intro v l hm
        simp only [List.mem_cons, List.not_mem_nil, or_false] at hm
        rcases hm with hm | hm <;> simp_all
      · intro g hg
        have hg2 : nid + 1 ≤ g.id := hg
        have hne : (⟨nid⟩ : Feed) ≠ g := feed_mk_ne (by omega)
        obtain ⟨h1, h2, _⟩ := hF g (show nid ≤ g.id by omega)
        refine ⟨not_mem_append_events h1 ?_, not_mem_append_events h2 ?_, ?_⟩
        · simp [Ne.symm hne]
        · simp
        · show some (⟨nid⟩ : Feed) ≠ some g
          simp [hne]
      · intro g hg
        have hg2 : some (⟨nid⟩ : Feed) = some g := hg
        obtain ⟨_, h2, _⟩ := hF ⟨nid⟩ (le_refl nid)
        show Event.feedStop g ∉ lg ++ [Event.feedStart ⟨nid⟩, Event.ptrWrite (some ⟨nid⟩) true]
        rw [← Option.some.injEq ⟨nid⟩ g |>.mp hg2]
        exact not_mem_append_events h2 (by simp)
      · intro f w hp; cases hp
      · intro f hp; cases hp
      · intro f old hp; cases hp
    · -- lines 570-573: start failed, early return
      refine ⟨?_, hL, hF, hB, ?_, ?_, ?_⟩
      · intro hap; simp [activePhase] at hap
      · intro f w hp; cases hp
      · intro f hp; cases hp
      · intro f old hp; cases hp
  | loopHead =>
    simp only [stream_loop_step_core]
    split
    · refine ⟨fun _ => hA (by simp [activePhase]), hL, hF, hB, ?_, ?_, ?_⟩
      · intro f w hp; cases hp
      · intro f hp; cases hp
      · intro f old hp; cases hp
    · refine ⟨?_, hL, hF, hB, ?_, ?_, ?_⟩
      · intro hap; simp [activePhase] at hap
      · intro f w hp; cases hp
      · intro f hp; cases hp
      · intro f old hp; cases hp
  | dwell e =>
    have hAd : activePhase (Phase.dwell e) = true := by simp [activePhase]
    simp only [stream_loop_step_core]
    split
    · split
      · refine ⟨fun _ => hA hAd, hL, hF, hB, ?_, ?_, ?_⟩
        · intro f w hp; cases hp
        · intro f hp; cases hp
        · intro f old hp; cases hp
      · split
        · refine ⟨fun _ => hA hAd, hL, hF, hB, ?_, ?_, ?_⟩
          · intro f w hp; cases hp
          · intro f hp; cases hp
          · intro f old hp; cases hp
        · refine ⟨fun _ => hA hAd, hL, hF, hB, ?_, ?_, ?_⟩
          · intro f w hp; cases hp
          · intro f hp; cases hp
          · intro f old hp; cases hp
    · refine ⟨fun _ => hA hAd, hL, hF, hB, ?_, ?_, ?_⟩
      · intro f w hp; cases hp
      · intro f hp; cases hp
      · intro f old hp; cases hp
  | afterDwell =>
    have hAd : activePhase Phase.afterDwell = true := by simp [activePhase]
    simp only [stream_loop_step_core]
    split
    · -- line 607: break to cleanup
      refine ⟨?_, hL, hF, hB, ?_, ?_, ?_⟩
      · intro hap; simp [activePhase] at hap
      · intro f w hp; cases hp
      · intro f hp; cases hp
      · intro f old hp; cases hp
    · split
      · -- lines 611-615: index advanced, new feed started, probe begins
        obtain ⟨g, hg⟩ := hA hAd
        refine ⟨fun _ => ⟨g, hg⟩, ?_, ?_, ?_, ?_, ?_, ?_⟩
        · show writesLocked (lg ++ [Event.feedStart ⟨nid⟩])
          exact writesLocked_append hL (by intro v l hm; simp at hm)
        · intro k hk
          have hk2 : nid + 1 ≤ k.id := hk
          have hne : (⟨nid⟩ : Feed) ≠ k := feed_mk_ne (by omega)
          obtain ⟨h1, h2, h3⟩ := hF k (show nid ≤ k.id by omega)
          exact ⟨not_mem_append_events h1 (by simp [Ne.symm hne]),
            not_mem_append_events h2 (by simp), h3⟩
        · intro k hk
          exact not_mem_append_events (hB k hk) (by simp)
        · intro f w hp
          have hp2 : Phase.probe ⟨nid⟩ 0 = Phase.probe f w := hp
          injection hp2 with hf _
          subst hf
          obtain ⟨_, h2, h3⟩ := hF ⟨nid⟩ (le_refl nid)
          refine ⟨by simp, not_mem_append_events h2 (by simp), g, hg, ?_⟩
          intro he; rw [he] at hg; exact h3 hg
        · intro f hp; cases hp
        · intro f old hp; cases hp
      · -- lines 616-618: start failed, keep current, back to the loop head
        refine ⟨fun _ => hA hAd, hL, hF, hB, ?_, ?_, ?_⟩
        · intro f w hp; cases hp
        · intro f hp; cases hp
        · intro f old hp; cases hp
  | probe f w =>
    have hpr := hPR f w rfl
    simp only [stream_loop_step_core]
    split
    · split
      · -- data ready: move to the swap
        refine ⟨fun _ => hA (by simp [activePhase]), hL, hF, hB, ?_, ?_, ?_⟩
        · intro f2 w2 hp; cases hp
        · intro f2 hp
          have hp2 : Phase.swapPtr f = Phase.swapPtr f2 := hp
          injection hp2 with hf
          subst hf
          exact hpr
        · intro f2 old hp; cases hp
      · -- keep waiting
        refine ⟨fun _ => hA (by simp [activePhase]), hL, hF, hB, ?_, ?_, ?_⟩
        · intro f2 w2 hp
          have hp2 : Phase.probe f (w + 1) = Phase.probe f2 w2 := hp
          injection hp2 with hf _
          subst hf
          exact hpr
        · intro f2 hp; cases hp
        · intro f2 old hp; cases hp
    · -- bound reached or stop requested: proceed to the swap regardless
      refine ⟨fun _ => hA (by simp [activePhase]), hL, hF, hB, ?_, ?_, ?_⟩
      · intro f2 w2 hp; cases hp
      · intro f2 hp
        have hp2 : Phase.swapPtr f = Phase.swapPtr f2 := hp
        injection hp2 with hf
        subst hf
        exact hpr
      · intro f2 old hp; cases hp
  | swapPtr f =>
    obtain ⟨hstart, hstop, g, hg, hgf⟩ := hSW f rfl
    simp only [stream_loop_step_core]
    refine ⟨fun _ => ⟨f, rfl⟩, ?_, ?_, ?_, ?_, ?_, ?_⟩
    · show writesLocked (lg ++ [Event.ptrWrite (some f) true])
      refine writesLocked_append hL ?_
      intro v l hm
      simp only [List.mem_cons, List.not_mem_nil, or_false] at hm
      simp_all
    · intro k hk
      have hk2 : nid ≤ k.id := hk
      obtain ⟨h1, h2, _⟩ := hF k hk2
      refine ⟨not_mem_append_events h1 (by simp), not_mem_append_events h2 (by simp), ?_⟩
      intro he
      have he2 : some f = some k := he
      injection he2 with hfk
      rw [← hfk] at hk2
      exact (hF f hk2).1 hstart
    · intro k hk
      have hk2 : some f = some k := hk
      injection hk2 with hfk
      subst hfk
      show Event.feedStop f ∉ lg ++ [Event.ptrWrite (some f) true]
      exact not_mem_append_events hstop (by simp)
    · intro f2 w2 hp; cases hp
    · intro f2 hp; cases hp
    · intro f2 old hp
      have hp2 : Phase.stopOldFeed f pt = Phase.stopOldFeed f2 old := hp
      injection hp2 with hf2 hold
      subst hf2
      refine ⟨rfl, by simp, ?_⟩
      intro o ho
      rw [← hold] at ho
      rw [ho] at hg
      injection hg with hgo
      subst hgo
      refine ⟨hgf, ?_, ?_⟩
      · show o.id < nid
        by_contra hcon
        push_neg at hcon
        exact (hF o hcon).2.2 ho
      · show Event.feedStop o ∉ lg ++ [Event.ptrWrite (some f) true]
        exact not_mem_append_events (hB o ho) (by simp)
  | stopOldFeed f old =>
    obtain ⟨hptr, hwrite, hOld⟩ := hSO f old rfl
    simp only [stream_loop_step_core]
    cases old with
    | none =>
      refine ⟨fun _ => ⟨f, hptr⟩, hL, hF, hB, ?_, ?_, ?_⟩
      · intro f2 w2 hp; cases hp
      · intro f2 hp; cases hp
      · intro f2 old2 hp; cases hp
    | some o =>
      obtain ⟨honef, hoid, honestop⟩ := hOld o rfl
      have hoid2 : o.id < nid := hoid
      have hptr2 : pt = some f := hptr
      refine ⟨fun _ => ⟨f, hptr⟩, ?_, ?_, ?_, ?_, ?_, ?_⟩
      · show writesLocked (lg ++ [Event.feedStop o])
        exact writesLocked_append hL (by intro v l hm; simp at hm)
      · intro k hk
        have hk2 : nid ≤ k.id := hk
        obtain ⟨h1, h2, h3⟩ := hF k hk2
        have hok : o ≠ k := by
          intro he; rw [he] at hoid2; omega
        exact ⟨not_mem_append_events h1 (by simp),
          not_mem_append_events h2 (by simp [Ne.symm hok]), h3⟩
      · intro k hk
        have hk2 : pt = some k := hk
        rw [hptr2] at hk2
        injection hk2 with hfk
        subst hfk
        show Event.feedStop f ∉ lg ++ [Event.feedStop o]
        refine not_mem_append_events (hB f hptr) ?_
        simp only [List.mem_singleton]
        intro he
        injection he with heo
        exact honef heo.symm
      · intro f2 w2 hp; cases hp
      · intro f2 hp; cases hp
      · intro f2 old2 hp; cases hp
  | drain =>
    simp only [stream_loop_step_core]
    refine ⟨fun _ => hA (by simp [activePhase]), hL, hF, hB, ?_, ?_, ?_⟩
    · intro f w hp; cases hp
    · intro f hp; cases hp
    · intro f old hp; cases hp
  | cleanup =>
    simp only [stream_loop_step_core]
    cases pt with
    | none =>
      refine ⟨?_, hL, hF, hB, ?_, ?_, ?_⟩
      · intro hap; simp [activePhase] at hap
      · intro f w hp; cases hp
      · intro f hp; cases hp
      · intro f old hp; cases hp
    | some c =>
      have hcid : c.id < nid := by
        by_contra hcon
        push_neg at hcon
        exact (hF c hcon).2.2 rfl
      refine ⟨?_, ?_, ?_, ?_, ?_, ?_, ?_⟩
      · intro hap; simp [activePhase] at hap
      · show writesLocked (lg ++ [Event.feedStop c, Event.ptrWrite none true])
        refine writesLocked_append hL ?_
        intro v l hm
        simp only [List.mem_cons, List.not_mem_nil, or_false] at hm
        rcases hm with hm | hm <;> simp_all
      · intro k hk
        have hk2 : nid ≤ k.id := hk
        obtain ⟨h1, h2, _⟩ := hF k hk2
        have hck : c ≠ k := by
          intro he; rw [he] at hcid; omega
        refine ⟨not_mem_append_events h1 (by simp),
          not_mem_append_events h2 (by simp [Ne.symm hck]), ?_⟩
        show (none : Option Feed) ≠ some k
        simp
      · intro k hk
        have hk2 : (none : Option Feed) = some k := hk
        cases hk2
      · intro f w hp; cases hp
      · intro f hp; cases hp
      · intro f old hp; cases hp
  | stopped b =>
    simp only [stream_loop_step_core]
    exact ⟨hA, hL, hF, hB, hPR, hSW, hSO⟩

theorem inv_step (P : Params) (env : CtrlEnv) (s : CtrlState) (h : Inv s) :
    Inv (stream_loop_step P env s) :=
  inv_step_core P env (applySignal env s) (inv_applySignal env s h)

theorem inv_run_from (P : Params) (envs : List CtrlEnv) (s : CtrlState)
    (h : Inv s) : Inv (stream_loop_run P envs s) := by
  induction envs generalizing s with
  | nil => exact h
  | cons e rest ih => exact ih _ (inv_step P e s h)

theorem inv_run (P : Params) (envs : List CtrlEnv) :
    Inv (stream_loop_run P envs initState) :=
  inv_run_from P envs initState inv_init

/-! ### Claim theorems -/

theorem advance_camera_iterate (cameras : List Camera) (k : Nat) :
    ∀ i, i < cameras.length →
      (advance_camera cameras)^[k] i = (i + k) % cameras.length := by
  induction k with
  | zero =>
    intro i hi
    simp [Nat.mod_eq_of_lt hi]
  | succ n ih =>
    intro i hi
    have hN : 0 < cameras.length := Nat.lt_of_le_of_lt (Nat.zero_le i) hi
    rw [Function.iterate_succ_apply]
    have h1 : advance_camera cameras i = (i + 1) % cameras.length := rfl
    rw [h1, ih ((i + 1) % cameras.length) (Nat.mod_lt _ hN), Nat.mod_add_mod]
    congr 1
    omega

/-- C5: for a non-empty camera list of length N and any valid rotation index
i, one advance_camera call moves the index to (i+1) mod N, and N consecutive
calls return it to i (round-robin closure, lines 266-277). -/
theorem advance_camera_round_robin (cameras : List Camera) (i : Nat)
    (hi : i < cameras.length) :
    (advance_camera cameras)^[cameras.length] i = i ∧
    advance_camera cameras i = (i + 1) % cameras.length := by
  refine ⟨?_, rfl⟩
  rw [advance_camera_iterate cameras cameras.length i hi,
    Nat.add_mod_right, Nat.mod_eq_of_lt hi]

/-- Camera list used by the round-robin witness. -/
def camsABC : List Camera :=
  [⟨"cam-a", some "http://a/stream.m3u8", none⟩,
   ⟨"cam-b", none, some "idB"⟩,
   ⟨"cam-c", some "http://c/stream.m3u8", none⟩]

/-- Witness for C5 at the three-camera list and starting index 1. -/
theorem advance_camera_round_robin_witness :
    (advance_camera camsABC)^[camsABC.length] 1 = 1 ∧
    advance_camera camsABC 1 = (1 + 1) % camsABC.length :=
  advance_camera_round_robin camsABC 1 (by decide)

/-- C1: in every reachable controller state in the phases after the first
feed is published and before the shutdown path, the ActiveFeedPointer
(current_camera_proc) holds exactly one feed handle (it is a single optional
reference, so it can never hold two; the theorem shows it is never empty),
and every recorded assignment to it was made under camera_lock. -/
theorem activeFeedPointer_invariant (P : Params) (envs : List CtrlEnv) :
    (activePhase (stream_loop_run P envs initState).phase = true →
      ∃ f, (stream_loop_run P envs initState).ptr = some f) ∧
    writesLocked (stream_loop_run P envs initState).log :=
  ⟨(inv_run P envs).ptrSome, (inv_run P envs).lockedWrites⟩

/-- C6: make-before-break ordering of every switch, in every reachable
state.  While the new feed is being probed (and when the swap is about to
run), the new feed has been started, is not stopped, and the pointer still
publishes the old feed, which is also not stopped; when the controller is
about to stop the old feed, the pointer has already been repointed to the
new feed by a single locked write. -/
theorem switch_make_before_break (P : Params) (envs : List CtrlEnv) :
    (∀ f w, (stream_loop_run P envs initState).phase = .probe f w →
      Event.feedStart f ∈ (stream_loop_run P envs initState).log ∧
      Event.feedStop f ∉ (stream_loop_run P envs initState).log ∧
      ∃ g, (stream_loop_run P envs initState).ptr = some g ∧ g ≠ f ∧
        Event.feedStop g ∉ (stream_loop_run P envs initState).log) ∧
    (∀ f, (stream_loop_run P envs initState).phase = .swapPtr f →
      Event.feedStart f ∈ (stream_loop_run P envs initState).log ∧
      Event.feedStop f ∉ (stream_loop_run P envs initState).log ∧
      ∃ g, (stream_loop_run P envs initState).ptr = some g ∧ g ≠ f ∧
        Event.feedStop g ∉ (stream_loop_run P envs initState).log) ∧
    (∀ f old, (stream_loop_run P envs initState).phase = .stopOldFeed f old →
      (stream_loop_run P envs initState).ptr = some f ∧
      Event.ptrWrite (some f) true ∈ (stream_loop_run P envs initState).log ∧
      ∀ o, old = some o → o ≠ f ∧
        Event.feedStop o ∉ (stream_loop_run P envs initState).log) := by
  have hinv := inv_run P envs
  refine ⟨?_, ?_, ?_⟩
  · intro f w hp
    obtain ⟨h1, h2, g, hg, hgf⟩ := hinv.probeInv f w hp
    exact ⟨h1, h2, g, hg, hgf, hinv.ptrNotStopped g hg⟩
  · intro f hp
    obtain ⟨h1, h2, g, hg, hgf⟩ := hinv.swapInv f hp
    exact ⟨h1, h2, g, hg, hgf, hinv.ptrNotStopped g hg⟩
  · intro f old hp
    obtain ⟨h1, h2, h3⟩ := hinv.stopOldInv f old hp
    exact ⟨h1, h2, fun o ho => ⟨(h3 o ho).1, (h3 o ho).2.2⟩⟩

/-! ### Concrete environments and states for scenario runs -/

/-- A step in which the outside world is healthy: no stop request, sink and
feed alive, feed starts succeed, no probe data yet. -/
def envHealthy : CtrlEnv := ⟨false, true, true, true, false⟩

/-- A step in which start_camera_feed fails (returns None). -/
def envStartFail : CtrlEnv := ⟨false, true, true, false, false⟩

/-- A step in which the persistent output ffmpeg has exited. -/
def envSinkDead : CtrlEnv := ⟨false, false, true, true, false⟩

/-- C2 (amended): when start_camera_feed fails during a switch, the
controller keeps the current feed published, stops nothing, and re-enters
the outer loop for another full dwell — but the rotation index was already
advanced by the advance_camera call at line 611, before the start attempt,
so the retried switch targets the source after the failed one rather than
the same source again. -/
theorem switch_start_failure_keeps_feed (P : Params) (env : CtrlEnv)
    (s : CtrlState)
    (hph : s.phase = .afterDwell) (hrun : s.running = true)
    (hstop : s.stopSet = false) (hsig : env.stopRequested = false)
    (hfail : env.startOk = false) :
    (stream_loop_step P env s).phase = .loopHead ∧
    (stream_loop_step P env s).ptr = s.ptr ∧
    (stream_loop_step P env s).log = s.log ∧
    (stream_loop_step P env s).cameraIndex = (s.cameraIndex + 1) % P.numCameras := by
  obtain ⟨ph, run, stp, ci, pt, nid, lg⟩ := s
  have hph2 : ph = .afterDwell := hph
  have hrun2 : run = true := hrun
  have hstop2 : stp = false := hstop
  subst hph2; subst hrun2; subst hstop2
  simp [stream_loop_step, applySignal, stream_loop_step_core, hsig, hfail]

/-- Controller state in the switch-decision phase with camera 0 active,
used to instantiate the feed-start-failure theorem. -/
def stateAfterDwell : CtrlState :=
  { phase := .afterDwell, running := true, stopSet := false,
    cameraIndex := 0, ptr := some ⟨0⟩, nextFeedId := 1,
    log := [.feedStart ⟨0⟩, .ptrWrite (some ⟨0⟩) true] }

/-- Witness for the amended C2 at a concrete three-camera configuration. -/
theorem switch_start_failure_keeps_feed_witness :
    (stream_loop_step ⟨3, 10, 10⟩ envStartFail stateAfterDwell).phase = .loopHead ∧
    (stream_loop_step ⟨3, 10, 10⟩ envStartFail stateAfterDwell).ptr = stateAfterDwell.ptr ∧
    (stream_loop_step ⟨3, 10, 10⟩ envStartFail stateAfterDwell).log = stateAfterDwell.log ∧
    (stream_loop_step ⟨3, 10, 10⟩ envStartFail stateAfterDwell).cameraIndex =
      (stateAfterDwell.cameraIndex + 1) % (⟨3, 10, 10⟩ : Params).numCameras :=
  switch_start_failure_keeps_feed ⟨3, 10, 10⟩ envStartFail stateAfterDwell
    rfl rfl rfl rfl rfl

/-- Three cameras, a one-second dwell, and a failed start of camera 1 at the
first switch. -/
def c2Params : Params := ⟨3, 1, 2⟩

/-- Schedule reaching the failed switch: start camera 0, dwell out the
interval, then fail to start camera 1. -/
def c2FailEnvs : List CtrlEnv :=
  [envHealthy, envHealthy, envHealthy, envHealthy, envStartFail]

/-- Schedule continuing through the next (successful) switch attempt. -/
def c2RetryEnvs : List CtrlEnv :=
  c2FailEnvs ++ [envHealthy, envHealthy, envHealthy, envHealthy]

/-- Counterexample to C2 as stated: after the failed switch away from
camera 0, the active feed is retained (still feed 0) but the rotation index
is 1, not 0 — it was advanced despite the failure — and the next switch
attempt starts the feed for camera 2 (index now 2), not camera 1 again. -/
theorem switch_start_failure_advances_index_cex :
    (stream_loop_run c2Params c2FailEnvs initState).ptr = some ⟨0⟩ ∧
    (stream_loop_run c2Params c2FailEnvs initState).cameraIndex = 1 ∧
    (stream_loop_run c2Params c2RetryEnvs initState).phase = .probe ⟨1⟩ 0 ∧
    (stream_loop_run c2Params c2RetryEnvs initState).cameraIndex = 2 := by
  decide

/-- C3 (amended): if the sink process has exited, the next dwell-loop poll
(at most one second away) observes it, clears `running`, and the controller
reaches cleanup on the following step — but the process exit status of the
run is 0, not non-zero: stream_loop returns normally and main has no
non-zero exit path after startup. -/
theorem sink_death_shutdown_exit_zero (P : Params) (s : CtrlState) (e : Nat)
    (env env2 : CtrlEnv)
    (hph : s.phase = .dwell e) (hrun : s.running = true)
    (hstop : s.stopSet = false) (he : e < P.switchInterval)
    (hdead : env.ffmpegAlive = false) (hsig : env.stopRequested = false)
    (hsig2 : env2.stopRequested = false) :
    (stream_loop_step P env s).running = false ∧
    (stream_loop_step P env s).phase = .afterDwell ∧
    (stream_loop_step P env2 (stream_loop_step P env s)).phase = .cleanup ∧
    ∀ cfg pm, (mainStartup cfg pm).1 = .streamLoopEntered →
      main_exit_status cfg pm = 0 := by
  obtain ⟨ph, run, stp, ci, pt, nid, lg⟩ := s
  have hph2 : ph = .dwell e := hph
  have hrun2 : run = true := hrun
  have hstop2 : stp = false := hstop
  subst hph2; subst hrun2; subst hstop2
  refine ⟨?_, ?_, ?_, ?_⟩
  · simp [stream_loop_step, applySignal, stream_loop_step_core, hsig, hdead, he]
  · simp [stream_loop_step, applySignal, stream_loop_step_core, hsig, hdead, he]
  · simp [stream_loop_step, applySignal, stream_loop_step_core, hsig, hsig2,
      hdead, he]
  · intro cfg pm hentered
    simp [main_exit_status, hentered]

/-- Controller state at the start of a dwell with camera 0 active. -/
def stateDwell0 : CtrlState :=
  { phase := .dwell 0, running := true, stopSet := false, cameraIndex := 0,
    ptr := some ⟨0⟩, nextFeedId := 1,
    log := [.feedStart ⟨0⟩, .ptrWrite (some ⟨0⟩) true] }

/-- Witness for the amended C3 at a concrete two-camera configuration. -/
theorem sink_death_shutdown_exit_zero_witness :
    (stream_loop_step ⟨2, 5, 10⟩ envSinkDead stateDwell0).running = false ∧
    (stream_loop_step ⟨2, 5, 10⟩ envSinkDead stateDwell0).phase = .afterDwell ∧
    (stream_loop_step ⟨2, 5, 10⟩ envHealthy
      (stream_loop_step ⟨2, 5, 10⟩ envSinkDead stateDwell0)).phase = .cleanup ∧
    ∀ cfg pm, (mainStartup cfg pm).1 = .streamLoopEntered →
      main_exit_status cfg pm = 0 :=
  sink_death_shutdown_exit_zero ⟨2, 5, 10⟩ stateDwell0 0 envSinkDead envHealthy
    rfl rfl rfl (by decide) rfl rfl rfl

/-- Schedule in which the sink dies during the first dwell. -/
def c3Envs : List CtrlEnv :=
  [envHealthy, envHealthy, envSinkDead, envHealthy, envHealthy]

/-- A complete configuration: stream section with interval and key, two
cameras, ffmpeg and audio sections. -/
def cfgFull : RawConfig := ⟨true, true, true, true, false, some 2, true, true⟩

/-- Counterexample to C3 as stated: with the sink dying during the first
dwell the controller does shut down (stream_loop ends), but the process
exit status of such a run is 0, not the non-zero status the claim
requires. -/
theorem sink_death_exit_status_cex :
    (stream_loop_run ⟨2, 2, 2⟩ c3Envs initState).phase = .stopped false ∧
    (stream_loop_run ⟨2, 2, 2⟩ c3Envs initState).running = false ∧
    (mainStartup cfgFull true).1 = .streamLoopEntered ∧
    main_exit_status cfgFull true = 0 := by
  decide

/-- Unfolding step of the controller run. -/
theorem stream_loop_run_cons (P : Params) (e : CtrlEnv) (t : List CtrlEnv)
    (s : CtrlState) :
    stream_loop_run P (e :: t) s = stream_loop_run P t (stream_loop_step P e s) :=
  rfl

/-- C7: from any probe state with w probe iterations already spent, if no
stop is requested and the new feed never produces readable data, the switch
nevertheless completes — pointer repointed to the new feed, old feed
stopped, controller back at the loop head — after exactly the remaining
probe bound plus the four constant-time steps (probe exit, locked swap,
old-feed stop, drain): completion is never gated on the feed producing
data (lines 628-652). -/
theorem switch_completes_without_data (P : Params) (n : Nat) :
    ∀ (s : CtrlState) (f old : Feed) (w : Nat) (envs : List CtrlEnv),
      s.phase = .probe f w → s.ptr = some old → s.stopSet = false →
      w + n = P.maxWait → envs.length = n + 4 →
      (∀ e ∈ envs, e.stopRequested = false ∧ e.dataReady = false) →
      (stream_loop_run P envs s).phase = .loopHead ∧
      (stream_loop_run P envs s).ptr = some f ∧
      Event.feedStop old ∈ (stream_loop_run P envs s).log := by
  induction n with
  | zero =>
    intro s f old w envs hph hptr hstop hw hlen henv
    obtain ⟨ph, run, stp, ci, pt, nid, lg⟩ := s
    have hph2 : ph = .probe f w := hph
    have hstop2 : stp = false := hstop
    have hptr2 : pt = some old := hptr
    subst hph2; subst hstop2; subst hptr2
    have hnw : ¬ w < P.maxWait := by omega
    cases envs with
    | nil => simp at hlen
    | cons e0 t0 =>
    cases t0 with
    | nil => simp at hlen
    | cons e1 t1 =>
    cases t1 with
    | nil => simp at hlen
    | cons e2 t2 =>
    cases t2 with
    | nil => simp at hlen
    | cons e3 t3 =>
    cases t3 with
    | cons e4 t4 => simp at hlen
    | nil =>
      have h0 := henv e0 (by simp)
      have h1 := henv e1 (by simp)
      have h2 := henv e2 (by simp)
      have h3 := henv e3 (by simp)
      refine ⟨?_, ?_, ?_⟩ <;>
        simp [stream_loop_run, stream_loop_step, applySignal,
          stream_loop_step_core, h0.1, h1.1, h2.1, h3.1, hnw]
  | succ m ih =>
    intro s f old w envs hph hptr hstop hw hlen henv
    cases envs with
    | nil => simp at hlen
    | cons e0 t0 =>
      have h0 := henv e0 (by simp)
      have hrest : ∀ e ∈ t0, e.stopRequested = false ∧ e.dataReady = false :=
        fun e he => henv e (by simp [he])
      obtain ⟨ph, run, stp, ci, pt, nid, lg⟩ := s
      have hph2 : ph = .probe f w := hph
      have hstop2 : stp = false := hstop
      have hptr2 : pt = some old := hptr
      subst hph2; subst hstop2; subst hptr2
      have hw2 : w < P.maxWait := by omega
      have hstep : stream_loop_step P e0
          ⟨.probe f w, run, false, ci, some old, nid, lg⟩ =
          ⟨.probe f (w + 1), run, false, ci, some old, nid, lg⟩ := by
        simp [stream_loop_step, applySignal, stream_loop_step_core,
          h0.1, h0.2, hw2]
      rw [stream_loop_run_cons, hstep]
      have hlen2 : t0.length = m + 4 := by simp at hlen; omega
      exact ih _ f old (w + 1) t0 rfl rfl rfl (by omega) hlen2 hrest

/-- Controller state mid-switch: camera 1's feed (handle 1) just started and
being probed, camera 0's feed (handle 0) still published. -/
def stateProbe : CtrlState :=
  { phase := .probe ⟨1⟩ 0, running := true, stopSet := false,
    cameraIndex := 1, ptr := some ⟨0⟩, nextFeedId := 2,
    log := [.feedStart ⟨0⟩, .ptrWrite (some ⟨0⟩) true, .feedStart ⟨1⟩] }

/-- Witness for C7: with a probe bound of 3 and no data ever ready, the
switch completes after 3 + 4 steps. -/
theorem switch_completes_without_data_witness :
    (stream_loop_run ⟨2, 5, 3⟩ (List.replicate 7 envHealthy) stateProbe).phase = .loopHead ∧
    (stream_loop_run ⟨2, 5, 3⟩ (List.replicate 7 envHealthy) stateProbe).ptr = some ⟨1⟩ ∧
    Event.feedStop ⟨0⟩ ∈ (stream_loop_run ⟨2, 5, 3⟩ (List.replicate 7 envHealthy) stateProbe).log :=
  switch_completes_without_data ⟨2, 5, 3⟩ 3 stateProbe ⟨1⟩ ⟨0⟩ 0
    (List.replicate 7 envHealthy) rfl rfl rfl rfl (by decide) (by decide)

/-- C4 (amended): start_camera_feed returns None on every failure, and a
failure of the first (extractor) spawn leaves nothing running — but a
failure of the normalizer spawn happens after the extractor is already
running, and the except handler at lines 381-383 terminates nothing, so the
extractor process is left running (leaked).  A returned handle always comes
with exactly the extractor/normalizer pair running. -/
theorem start_camera_feed_failure_effects (camera : Camera) (env : SpawnEnv) :
    (camera.streamUrl = none ∧ camera.youtubeId = none →
      start_camera_feed camera env = (none, [])) ∧
    (env.sourceSpawnOk = false → start_camera_feed camera env = (none, [])) ∧
    ((camera.streamUrl ≠ none ∨ camera.youtubeId ≠ none) →
      env.sourceSpawnOk = true → env.normSpawnOk = false →
      start_camera_feed camera env = (none, [.sourceExtractor])) ∧
    (∀ h, (start_camera_feed camera env).1 = some h →
      start_camera_feed camera env =
        (some (.sourceExtractor, .normalizer), [.sourceExtractor, .normalizer])) := by
  obtain ⟨nm, su, yi⟩ := camera
  obtain ⟨so, no⟩ := env
  cases su <;> cases yi <;> cases so <;> cases no <;>
    simp [start_camera_feed]

/-- Counterexample to C4 as stated: with a stream-URL camera, a successful
extractor spawn and a failing normalizer spawn, the call returns None (no
handle) yet the extractor process is left running — a side effect the claim
rules out. -/
theorem start_camera_feed_leak_cex :
    (start_camera_feed ⟨"cam0", some "http://cam0/stream.m3u8", none⟩
      ⟨true, false⟩).1 = none ∧
    (start_camera_feed ⟨"cam0", some "http://cam0/stream.m3u8", none⟩
      ⟨true, false⟩).2 = [.sourceExtractor] :=
  ⟨rfl, rfl⟩

/-- Failing relay reads come only from a failed sink write. -/
theorem relayReads_eq_some {l : List ReadEvent} {r : RelayExit}
    (h : relayReads l = some r) :
    r = .sinkWriteFailed ∧ ReadEvent.chunk true false ∈ l := by
  induction l with
  | nil => simp [relayReads] at h
  | cons a t ih =>
    cases a with
    | notReady => simp [relayReads] at h
    | eofData => simp [relayReads] at h
    | readError => simp [relayReads] at h
    | chunk so wo =>
      cases so with
      | false =>
        have := ih (by simpa [relayReads] using h)
        exact ⟨this.1, by simp [this.2]⟩
      | true =>
        cases wo with
        | false =>
          simp [relayReads] at h
          exact ⟨h.symm, by simp⟩
        | true =>
          have := ih (by simpa [relayReads] using h)
          exact ⟨this.1, by simp [this.2]⟩

/-- Without a failing sink write among the offered reads, the inner read
loop falls through. -/
theorem relayReads_eq_none {l : List ReadEvent}
    (h : ReadEvent.chunk true false ∉ l) : relayReads l = none := by
  induction l with
  | nil => rfl
  | cons a t ih =>
    cases a with
    | notReady => rfl
    | eofData => rfl
    | readError => rfl
    | chunk so wo =>
      have ht : ReadEvent.chunk true false ∉ t := fun hm => h (by simp [hm])
      cases so with
      | false => simpa [relayReads] using ih ht
      | true =>
        cases wo with
        | false => exact absurd (by simp) h
        | true => simpa [relayReads] using ih ht

/-- A single relay iteration that returns did so for the stop flag or for a
failed sink write. -/
theorem buffer_writer_iter_exit {env : RelayEnv} {r : RelayExit}
    (h : buffer_writer_iter env = some r) :
    (r = .stopFlag ∧ env.stopSet = true) ∨
    (r = .sinkWriteFailed ∧ ReadEvent.chunk true false ∈ env.reads) := by
  unfold buffer_writer_iter at h
  by_cases hs : env.stopSet
  · left
    simp [hs] at h
    exact ⟨h.symm, hs⟩
  · right
    simp [hs] at h
    match hc : env.camProc with
    | none => rw [hc] at h; simp at h
    | some f =>
      rw [hc] at h
      have hr := relayReads_eq_some h
      exact ⟨hr.1, List.take_subset 10 env.reads hr.2⟩

/-- C8: the relay loop terminates only because the stop flag was set or a
write to the sink's input failed; an iteration that merely sees an empty
ActiveFeedPointer, or reads that end (EOF) or error without a failed sink
write, leaves the loop running. -/
theorem buffer_writer_exit_conditions (envs : List RelayEnv) :
    (buffer_writer envs = some .stopFlag → ∃ e ∈ envs, e.stopSet = true) ∧
    (buffer_writer envs = some .sinkWriteFailed →
      ∃ e ∈ envs, ReadEvent.chunk true false ∈ e.reads) ∧
    (∀ env : RelayEnv, env.stopSet = false → env.camProc = none →
      buffer_writer_iter env = none) ∧
    (∀ env : RelayEnv, env.stopSet = false →
      ReadEvent.chunk true false ∉ env.reads → buffer_writer_iter env = none) := by
  refine ⟨?_, ?_, ?_, ?_⟩
  · intro h
    induction envs with
    | nil => simp [buffer_writer] at h
    | cons e t ih =>
      unfold buffer_writer at h
      match hi : buffer_writer_iter e with
      | some r =>
        rw [hi] at h
        simp at h
        subst h
        rcases buffer_writer_iter_exit hi with ⟨_, hset⟩ | ⟨hbad, _⟩
        · exact ⟨e, by simp, hset⟩
        · cases hbad
      | none =>
        rw [hi] at h
        obtain ⟨e2, he2, hset⟩ := ih h
        exact ⟨e2, by simp [he2], hset⟩
  · intro h
    induction envs with
    | nil => simp [buffer_writer] at h
    | cons e t ih =>
      unfold buffer_writer at h
      match hi : buffer_writer_iter e with
      | some r =>
        rw [hi] at h
        simp at h
        subst h
        rcases buffer_writer_iter_exit hi with ⟨hbad, _⟩ | ⟨_, hm⟩
        · cases hbad
        · exact ⟨e, by simp, hm⟩
      | none =>
        rw [hi] at h
        obtain ⟨e2, he2, hm⟩ := ih h
        exact ⟨e2, by simp [he2], hm⟩
  · intro env hset hnone
    simp [buffer_writer_iter, hset, hnone]
  · intro env hset hnf
    have : ReadEvent.chunk true false ∉ env.reads.take 10 :=
      fun hm => hnf (List.take_subset 10 env.reads hm)
    simp only [buffer_writer_iter, hset]
    match hc : env.camProc with
    | none => simp
    | some f => simp [relayReads_eq_none this]

/-- Sequencing a raised error skips the rest of the startup actions. -/
theorem pyErr_throw_bind {α β : Type} (e : PyErr) (k : α → Except PyErr β) :
    (throw e : Except PyErr α) >>= k = .error e :=
  rfl

/-- Sequencing after a successful action continues with its result. -/
theorem pyErr_pure_bind {α β : Type} (a : α) (k : α → Except PyErr β) :
    (pure a : Except PyErr α) >>= k = k a :=
  rfl

/-- Binding a success continues with its value. -/
theorem pyErr_ok_bind {α β : Type} (a : α) (k : α → Except PyErr β) :
    (Except.ok a : Except PyErr α) >>= k = k a :=
  rfl

/-- Binding a raised error keeps the error. -/
theorem pyErr_error_bind {α β : Type} (e : PyErr) (k : α → Except PyErr β) :
    (Except.error e : Except PyErr α) >>= k = .error e :=
  rfl

/-- The pure action of the startup error monad is success. -/
theorem pyErr_pure_eq_ok {α : Type} (a : α) : (pure a : Except PyErr α) = .ok a :=
  rfl

/-- C9 (amended): a missing stream section or missing switch_interval makes
startup abort before any process is spawned (unhandled error in load_config,
line 167); but a missing camera list passes load_config and start_ffmpeg
untouched, so it is only detected inside stream_loop (line 560), after the
persistent Output Sink process has already been spawned. -/
theorem config_missing_sections_order (cfg : RawConfig) (pm : Bool) :
    (cfg.hasStream = false →
      (mainStartup cfg pm).2 = [] ∧
      ∃ e, (mainStartup cfg pm).1 = .abortedBeforeProcesses e) ∧
    (cfg.hasSwitchInterval = false →
      (mainStartup cfg pm).2 = [] ∧
      ∃ e, (mainStartup cfg pm).1 = .abortedBeforeProcesses e) ∧
    (cfg.cameras = none → cfg.hasStream = true → cfg.hasSwitchInterval = true →
      cfg.hasFfmpeg = true → cfg.hasAudio = true →
      (cfg.hasYoutube && cfg.hasStreamKey) = true → pm = true →
      (mainStartup cfg pm).1 = .errorAfterSink (.keyError "cameras") ∧
      (mainStartup cfg pm).2 = [.outputSink]) := by
  obtain ⟨hs, hsi, hy, hk, he, cams, hf, ha⟩ := cfg
  refine ⟨?_, ?_, ?_⟩
  · intro h
    have h2 : hs = false := h
    subst h2
    cases he <;> simp [mainStartup, load_config, pyErr_throw_bind, pyErr_pure_bind, pyErr_pure_eq_ok, pyErr_ok_bind, pyErr_error_bind]
  · intro h
    have h2 : hsi = false := h
    subst h2
    cases hs <;> cases hy <;> cases hk <;> cases he <;>
      simp [mainStartup, load_config, pyErr_throw_bind, pyErr_pure_bind, pyErr_pure_eq_ok, pyErr_ok_bind, pyErr_error_bind]
  · intro hc h1 h2 h3 h4 h5 h6
    have ec : cams = none := hc
    have e1 : hs = true := h1
    have e2 : hsi = true := h2
    have e3 : hf = true := h3
    have e4 : ha = true := h4
    have e6 : pm = true := h6
    subst ec; subst e1; subst e2; subst e3; subst e4; subst e6
    have e5 : (hy && hk) = true := h5
    obtain ⟨e7, e8⟩ := Bool.and_eq_true_iff.mp e5
    subst e7; subst e8
    simp [mainStartup, load_config, start_ffmpeg, stream_loop_entry,
      pyErr_throw_bind, pyErr_pure_bind, pyErr_pure_eq_ok, pyErr_ok_bind, pyErr_error_bind]

/-- Configuration whose only defect is a missing camera list. -/
def cfgNoCameras : RawConfig := ⟨true, true, true, true, false, none, true, true⟩

/-- Counterexample to C9 as stated: with every section present except the
camera list, the run does not abort before any process starts — the Output
Sink is spawned and only then does the camera-list access fail, inside
stream_loop. -/
theorem config_missing_cameras_cex :
    (mainStartup cfgNoCameras true).1 = .errorAfterSink (.keyError "cameras") ∧
    (mainStartup cfgNoCameras true).2 = [.outputSink] :=
  ⟨rfl, rfl⟩

/-- C10: when no explicit stream_key is configured and the stream-key
environment variable is unset or empty, load_config does not complete with
a logged warning: the warning f-string at lines 160-161 references the name
stream_name, which is bound nowhere in scope, so the call raises NameError. -/
theorem load_config_missing_key_nameError (cfg : RawConfig)
    (hkey : (cfg.hasStream && cfg.hasYoutube && cfg.hasStreamKey) = false)
    (henv : cfg.streamKeyEnvSet = false) :
    load_config cfg = .error (.nameError "stream_name") ∧
    "stream_name" ∉ load_config_scope := by
  refine ⟨?_, by decide⟩
  obtain ⟨hs, hsi, hy, hk, he, cams, hf, ha⟩ := cfg
  have h1 : (hs && hy && hk) = false := hkey
  have h2 : he = false := henv
  subst h2
  simp [load_config, h1, pyErr_throw_bind, pyErr_pure_bind, pyErr_pure_eq_ok, pyErr_ok_bind, pyErr_error_bind]

/-- Stream configuration with a youtube section but no stream_key and no
usable environment variable. -/
def cfgNoKey : RawConfig := ⟨true, true, true, false, false, some 2, true, true⟩

/-- Witness for C10 at a concrete configuration. -/
theorem load_config_missing_key_nameError_witness :
    load_config cfgNoKey = .error (.nameError "stream_name") ∧
    "stream_name" ∉ load_config_scope :=
  load_config_missing_key_nameError cfgNoKey rfl rfl

end StreamManager
